import Mathlib

set_option maxHeartbeats 1000000

deriving instance DecidableEq for Except

/-!
Verification development for the go-agent-ollama-slm repository.

The definitions below are a shallow embedding of the Go source:
- the egress safety dialer stack (pkg/tools/tools.go: safeDialer together with
  the Go standard library routines net.SplitHostPort and net.ParseIP it calls),
- the vehicle-registry lookup tool (pkg/tools/tools.go: GetOwnerID and
  mapRegistrationToOwnerID),
- the chat workflow orchestrator (pkg/webui/webui.go: createChat, updateChat,
  triggerCompletion, CreateMainChat, fetchFinalChatWithPolling) plus the
  internal/webui duplicate and the HTTP handler flow around it.

Network effects are modelled by oracles: a backend is a record of response
functions, and each embedded operation returns the list of calls it issued
(with their full payloads) together with its result, so that ordering,
at-most-once and payload-shape properties can be stated and proved.
-/

/- ------------------------------------------------------------------ -/
/- Go standard library model: net.SplitHostPort                        -/
/- ------------------------------------------------------------------ -/

/-- Index of the last occurrence of a character in a list, if any.
Models Go byte-wise last-index search; the searched characters are all
ASCII, and no ASCII byte occurs inside a multi-byte UTF-8 sequence, so
char-level search agrees with Go byte-level search on the split result. -/
def lastIdxOf (l : List Char) (c : Char) : Option Nat :=
  match l.reverse.findIdx? (fun x => x == c) with
  | none => none
  | some j => some (l.length - 1 - j)

/-- Model of Go net.SplitHostPort: splits "host:port" or "[host]:port",
returning the error message on malformed input.  Follows the Go source
line by line (last-colon search, bracket handling, stray-bracket checks). -/
def splitHostPort (hostport : String) : Except String (String × String) :=
  let s := hostport.data
  match lastIdxOf s ':' with
  | none => Except.error "missing port in address"
  | some i =>
    if s.head? = some '[' then
      match s.findIdx? (fun x => x == ']') with
      | none => Except.error "missing \x27]\x27 in address"
      | some en =>
        if en + 1 = s.length then Except.error "missing port in address"
        else if en + 1 = i then
          let host := (s.drop 1).take (en - 1)
          if (s.drop 1).contains '[' then Except.error "missing \x27]\x27 in address"
          else if (s.drop (en + 1)).contains ']' then Except.error "unexpected \x27]\x27 in address"
          else Except.ok (String.mk host, String.mk (s.drop (i + 1)))
        else
          if s[en + 1]? = some ':' then Except.error "too many colons in address"
          else Except.error "missing port in address"
    else
      let host := s.take i
      if host.contains ':' then Except.error "too many colons in address"
      else if s.contains '[' then Except.error "missing \x27]\x27 in address"
      else if s.contains ']' then Except.error "unexpected \x27]\x27 in address"
      else Except.ok (String.mk host, String.mk (s.drop (i + 1)))

/- ------------------------------------------------------------------ -/
/- Go standard library model: net.ParseIP (validity)                   -/
/- ------------------------------------------------------------------ -/

/-- Validity part of netip parseIPv4Fields: walks the string keeping the
current field value, the digit count of the current field and the number
of completed fields, rejecting leading zeros, values above 255, dots at
the start or end or after a dot, and more or fewer than four fields. -/
def ipv4Fields : List Char → Nat → Nat → Nat → Bool
  | [], _, _, pos => pos == 3
  | c :: rest, val, digLen, pos =>
    if '0' ≤ c ∧ c ≤ '9' then
      if digLen = 1 ∧ val = 0 then false
      else
        let v := val * 10 + (c.toNat - '0'.toNat)
        if v > 255 then false
        else ipv4Fields rest v (digLen + 1) pos
    else if c = '.' then
      if digLen = 0 then false
      else if rest = [] then false
      else if pos = 3 then false
      else ipv4Fields rest 0 0 (pos + 1)
    else false

/-- Hex digit in the sense of netip parseIPv6 (0-9, a-f, A-F). -/
def isHexDigitGo (c : Char) : Bool :=
  ('0' ≤ c ∧ c ≤ '9') ∨ ('a' ≤ c ∧ c ≤ 'f') ∨ ('A' ≤ c ∧ c ≤ 'F')

/-- Number of leading hex digits of the list. -/
def countLeadingHex : List Char → Nat
  | [] => 0
  | c :: rest => if isHexDigitGo c then countLeadingHex rest + 1 else 0

/-- End-of-loop checks of netip parseIPv6: the whole string must have been
consumed; fewer than 16 bytes requires an ellipsis to expand, exactly 16
bytes forbids one (it must expand to at least one zero field). -/
def ipv6After (s : List Char) (i : Nat) (ell : Option Nat) : Bool :=
  if s ≠ [] then false
  else if i < 16 then ell.isSome
  else ell.isNone

/-- Main loop of netip parseIPv6 (validity): s is the remaining input,
i the number of address bytes produced so far, ell the byte position of
the ellipsis if one was seen.  Each iteration reads a hex group of one to
four digits, possibly switches to an embedded IPv4 tail, and then expects
a colon (with optional second colon introducing the single ellipsis).
The loop guard is i < 16 as in the source; i rises by 2 per iteration, so
8 units of structural fuel (supplied by ipv6CoreOk) are never exhausted
and serve only to make the recursion structural. -/
def ipv6Loop : Nat → List Char → Nat → Option Nat → Bool
  | 0, s, i, ell => ipv6After s i ell
  | fuel + 1, s, i, ell =>
    if i < 16 then
      let off := countLeadingHex s
      if off = 0 then false
      else if off > 4 then false
      else
        let rest := s.drop off
        if rest.head? = some '.' then
          if ell.isNone ∧ i ≠ 12 then false
          else if i + 4 > 16 then false
          else if ipv4Fields s 0 0 0 then ipv6After [] (i + 4) ell else false
        else
          match rest with
          | [] => ipv6After [] (i + 2) ell
          | c :: rest' =>
            if c ≠ ':' then false
            else
              match rest' with
              | [] => false
              | d :: rest'' =>
                if d = ':' then
                  if ell.isSome then false
                  else
                    match rest'' with
                    | [] => ipv6After [] (i + 2) (some (i + 2))
                    | _ :: _ => ipv6Loop fuel rest'' (i + 2) (some (i + 2))
                else ipv6Loop fuel rest' (i + 2) ell
    else ipv6After s i ell

/-- netip parseIPv6 on a zone-free input (validity): handles a leading
double colon, then runs the main loop. -/
def ipv6CoreOk (s : List Char) : Bool :=
  match s with
  | ':' :: ':' :: rest => if rest = [] then true else ipv6Loop 8 rest 0 (some 0)
  | _ => ipv6Loop 8 s 0 none

/-- Model of (net.ParseIP s != nil).  netip.ParseAddr dispatches on the
first of a dot, a colon or a percent sign; net.ParseIP additionally
rejects any address carrying a zone.  A percent sign under the colon case
therefore always yields false here: with a non-empty zone the parse
succeeds but net.ParseIP rejects the zone, and with an empty zone the
parse itself fails. -/
def parseIPOk (s : String) : Bool :=
  match s.data.find? (fun c => c == '.' ∨ c == ':' ∨ c == '%') with
  | some '.' => ipv4Fields s.data 0 0 0
  | some ':' => if s.data.contains '%' then false else ipv6CoreOk s.data
  | _ => false

/- ------------------------------------------------------------------ -/
/- pkg/tools/tools.go: safeDialer                                      -/
/- ------------------------------------------------------------------ -/

/-- Outcome of the egress safety dialer: either the connection attempt is
handed to the plain network dialer (net.Dialer with a 5 second connect
timeout and keep-alive), or it is refused with an error message before
any name resolution. -/
inductive DialResult where
  | dialed (network addr : String)
  | refused (msg : String)
deriving DecidableEq

/-- Model of safeDialer: split the address into host and port, falling
back to the whole address as the host when the split fails; dial when the
host is an IP literal, refuse otherwise. -/
def safeDialer (network addr : String) : DialResult :=
  let host :=
    match splitHostPort addr with
    | Except.ok (h, _) => h
    | Except.error _ => addr
  if parseIPOk host then DialResult.dialed network addr
  else
    DialResult.refused
      ("hostname lookup blocked: connection attempt to \x27" ++ host ++ "\x27 is prohibited")

example : parseIPOk "127.0.0.1" = true := by decide
example : parseIPOk "192.168.1.1" = true := by decide
example : parseIPOk "::1" = true := by decide
example : parseIPOk "2001:db8::8a2e:370:7334" = true := by decide
example : parseIPOk "::ffff:1.2.3.4" = true := by decide
example : parseIPOk "1:2:3:4:5:6:7:8" = true := by decide
example : parseIPOk "256.1.1.1" = false := by decide
example : parseIPOk "01.2.3.4" = false := by decide
example : parseIPOk "1.2.3" = false := by decide
example : parseIPOk "1.2.3.4.5" = false := by decide
example : parseIPOk "example.com" = false := by decide
example : parseIPOk "localhost" = false := by decide
example : parseIPOk "" = false := by decide
example : parseIPOk "1::" = false ∨ parseIPOk "1::" = true := by decide
example : parseIPOk "1::" = true := by decide
example : parseIPOk "1:2" = false := by decide
example : parseIPOk "fe80::1%eth0" = false := by decide
example : parseIPOk ":::" = false := by decide
example : parseIPOk "::" = true := by decide
example : splitHostPort "127.0.0.1:80" = Except.ok ("127.0.0.1", "80") := by decide
example : splitHostPort "[::1]:80" = Except.ok ("::1", "80") := by decide
example : splitHostPort "127.0.0.1" = Except.error "missing port in address" := by decide
example : splitHostPort "localhost" = Except.error "missing port in address" := by decide
example : splitHostPort "a:b:c" = Except.error "too many colons in address" := by decide

/- ------------------------------------------------------------------ -/
/- pkg/tools/tools.go: GetOwnerID and mapRegistrationToOwnerID         -/
/- ------------------------------------------------------------------ -/

/-- Decoded body of the vehicle registry (DVSA) response.  Only
registrationNumber feeds the owner-id mapping; the remaining fields are
carried to mirror the source struct. -/
structure VehicleResponse where
  registrationNumber : String
  taxStatus : String := ""
  motStatus : String := ""
  make : String := ""
  yearOfManufacture : Nat := 0
  engineCapacity : Nat := 0
  co2Emissions : Nat := 0
  fuelType : String := ""
  markedForExport : Bool := false
  colour : String := ""
  typeApproval : String := ""
  euroStatus : Nat := 0
  dateOfLastV5CIssued : String := ""
  motExpiryDate : String := ""
  wheelplan : String := ""
  monthOfFirstRegistration : String := ""
deriving DecidableEq

/-- Model of strings.ToUpper: uppercases character by character (the
Char.toUpper ASCII mapping agrees with Go on the registration plates
handled here). -/
def toUpperGo (s : String) : String :=
  String.mk (s.data.map Char.toUpper)

/-- Dummy owner mapping: a registration longer than 3 bytes maps to
"OWNER-" followed by the uppercased registration, anything else to the
empty string.  Byte length mirrors Go len. -/
def mapRegistrationToOwnerID (regID : String) : String :=
  if regID.utf8ByteSize > 3 then "OWNER-" ++ toUpperGo regID else ""

/-- Model of GetOwnerID.  The HTTP steps (request construction,
execution, status check, JSON decode) are folded into the fetch oracle:
an error covers any of their failures, already wrapped with the message
the source attaches at the failing step.  The returned Bool records
whether the network request was issued at all. -/
def getOwnerID (registrationID : String) (fetch : Except String VehicleResponse) :
    Bool × Except String String :=
  if registrationID = "" then
    (false, Except.error "Tool B received empty registration ID")
  else
    match fetch with
    | Except.error e => (true, Except.error e)
    | Except.ok apiResponse =>
      let ownerID := mapRegistrationToOwnerID apiResponse.registrationNumber
      if ownerID = "" then
        (true, Except.error ("Tool B: Failed to map registration "
          ++ apiResponse.registrationNumber ++ " to an owner ID"))
      else (true, Except.ok ownerID)

/- ------------------------------------------------------------------ -/
/- pkg/webui/webui.go: data model                                      -/
/- ------------------------------------------------------------------ -/

/-- One chat turn (pkg/webui Message).  Timestamps are Unix milliseconds,
modelled as Nat. -/
structure Message where
  id : String
  role : String
  content : String
  timestamp : Nat
  parentId : String := ""
  modelName : String := ""
  modelIdx : Nat := 0
  models : List String := []
deriving DecidableEq

/-- Insertion into a Go map modelled as an association list: replaces the
binding when the key is present, appends otherwise.  A Go map literal
with two entries is two nested insertions into the empty map. -/
def mapInsert (m : List (String × Message)) (k : String) (v : Message) :
    List (String × Message) :=
  if m.any (fun p => p.1 == k) then m.map (fun p => if p.1 = k then (k, v) else p)
  else m ++ [(k, v)]

/-- Go map lookup on the association-list model. -/
def histLookup (m : List (String × Message)) (k : String) : Option Message :=
  (m.find? (fun p => p.1 == k)).map Prod.snd

/-- History snapshot: pointer to the current turn plus the by-id map of
all turns. -/
structure History where
  currentId : String
  messages : List (String × Message)
deriving DecidableEq

/-- Chat payload (pkg/webui Chat).  The internal/webui duplicate of this
struct lacks the tools field; there the field is simply never set. -/
structure Chat where
  id : String := ""
  title : String
  models : List String
  messages : List Message
  tools : List String := []
  history : History
deriving DecidableEq

structure BackgroundTasks where
  titleGeneration : Bool
  tagsGeneration : Bool
  followUpGeneration : Bool
deriving DecidableEq

structure Features where
  codeInterpreter : Bool
  webSearch : Bool
  imageGeneration : Bool
  memory : Bool
deriving DecidableEq

structure EnvironmentData where
  userName : String
  userLanguage : String
  currentDatetime : String
  currentTimezone : String
deriving DecidableEq

/-- Optional file attachment on a completion request: type is
"collection" for a knowledge collection, "file" for a single document. -/
structure FileReference where
  type : String
  id : String
deriving DecidableEq

structure CompletionRequest where
  chatId : String
  messageId : String
  messages : List Message
  model : String
  stream : Bool
  backgroundTasks : BackgroundTasks
  features : Features
  environmentData : EnvironmentData
  sessionId : String
  files : List FileReference
deriving DecidableEq

/- ------------------------------------------------------------------ -/
/- pkg/webui/webui.go: payload builders                                -/
/- ------------------------------------------------------------------ -/

/-- User message built in createChat: role "user", the question as
content, the submission-time timestamp, and the configured model. -/
def buildUserMessage (userQuestion userMsgID : String) (timestamp : Nat)
    (modelName : String) : Message :=
  { id := userMsgID, role := "user", content := userQuestion,
    timestamp := timestamp, parentId := "", modelName := "", modelIdx := 0,
    models := [modelName] }

/-- Chat-creation payload (step 1): the user turn as sole message and
initial history, current_id pointing at it. -/
def createChatPayload (userQuestion userMsgID : String) (timestamp : Nat)
    (modelName : String) : Chat :=
  let userMessage := buildUserMessage userQuestion userMsgID timestamp modelName
  { id := "", title := userQuestion, models := [modelName],
    messages := [userMessage], tools := ["DVSA Lookup"],
    history := { currentId := userMsgID,
                 messages := mapInsert [] userMsgID userMessage } }

/-- Assistant message re-initialised inside updateChat: empty content,
parent pointing at the user turn, timestamp taken fresh at submission. -/
def buildAssistantMessage (assistantMsgID userMsgID : String) (now : Nat)
    (modelName : String) : Message :=
  { id := assistantMsgID, role := "assistant", content := "",
    timestamp := now, parentId := userMsgID, modelName := modelName,
    modelIdx := 0, models := [modelName] }

/-- Chat-update payload (steps 2 and 4): full message list (user then
assistant) and full history map keyed by id, current_id pointing at the
assistant turn. -/
def updateChatPayload (chatID question userMsgID assistantMsgID : String)
    (userMessage : Message) (now : Nat) (modelName : String) : Chat :=
  let a := buildAssistantMessage assistantMsgID userMsgID now modelName
  { id := chatID, title := question, models := [modelName],
    messages := [userMessage, a], tools := ["DVSA Lookup"],
    history := { currentId := a.id,
                 messages := mapInsert (mapInsert [] userMessage.id userMessage) a.id a } }

/-- Completion request built in triggerCompletion, with the optional
file references appended in source order: the knowledge collection (type
"collection") first, then the single document (type "file"). -/
def completionRequestPayload (chatID assistantMsgID : String)
    (userMessage : Message) (modelName dt : String)
    (knowledgeID documentID : String) : CompletionRequest :=
  let files0 : List FileReference := []
  let files1 := if knowledgeID ≠ "" then files0 ++ [{ type := "collection", id := knowledgeID }]
                else files0
  let files2 := if documentID ≠ "" then files1 ++ [{ type := "file", id := documentID }]
                else files1
  { chatId := chatID, messageId := assistantMsgID, messages := [userMessage],
    model := modelName, stream := true,
    backgroundTasks := { titleGeneration := true, tagsGeneration := false,
                         followUpGeneration := false },
    features := { codeInterpreter := false, webSearch := false,
                  imageGeneration := false, memory := false },
    environmentData := { userName := "", userLanguage := "en-US",
                         currentDatetime := dt, currentTimezone := "Europe" },
    sessionId := chatID, files := files2 }

/-- Whitespace in the sense of Go strings.TrimSpace (ASCII fast path:
space, tab, newline, vertical tab, form feed, carriage return; the
Unicode space classes do not occur in the prompts modelled here). -/
def isSpaceGo (c : Char) : Bool :=
  c = ' ' ∨ c = '\t' ∨ c = '\n' ∨ c = Char.ofNat 11 ∨ c = Char.ofNat 12 ∨ c = '\r'

/-- Model of Go strings.TrimSpace: drops leading and trailing
whitespace. -/
def trimSpace (s : String) : String :=
  String.mk (((s.data.dropWhile isSpaceGo).reverse.dropWhile isSpaceGo).reverse)

/- ------------------------------------------------------------------ -/
/- pkg/webui/webui.go: completion poller                               -/
/- ------------------------------------------------------------------ -/

/-- Polling configuration constants declared in the source.  Note that
fetchFinalChatWithPolling never reads them: it contains no loop. -/
def PollingInterval : Nat := 1

def MaxPollingAttempts : Nat := 15

/-- Model of fetchFinalChatWithPolling.  Despite its name, the source
function issues exactly one GET of the chat state (modelled by the
fetched argument, the decoded response or the transport/status error)
and runs its four readiness checks once, returning an error on the first
unmet one; there is no retry loop and the polling constants are unused. -/
def fetchFinalChatWithPolling (assistantMsgID : String)
    (fetched : Except String (List Chat)) : Except String String :=
  match fetched with
  | Except.error e => Except.error ("failed to fetch chat state: " ++ e)
  | Except.ok chatArray =>
    match chatArray with
    | [] => Except.error "chat response array was empty, continuing poll"
    | resp :: _ =>
      match histLookup resp.history.messages assistantMsgID with
      | none => Except.error "assistant message ID not yet present in history, continuing poll"
      | some latestMsg =>
        if latestMsg.role ≠ "assistant" then
          Except.error "found message, but role is incorrect, continuing poll"
        else if latestMsg.content = "" then
          Except.error "assistant message content is empty, continuing poll"
        else Except.ok latestMsg.content

/-- The four transient (not-ready) failure reasons of the poll check, in
source order. -/
def pollNotReadyMsgs : List String :=
  ["chat response array was empty, continuing poll",
   "assistant message ID not yet present in history, continuing poll",
   "found message, but role is incorrect, continuing poll",
   "assistant message content is empty, continuing poll"]

/- ------------------------------------------------------------------ -/
/- pkg/webui/webui.go: orchestrator                                    -/
/- ------------------------------------------------------------------ -/

/-- One outbound call of the orchestrator, with its full payload:
POST /api/v1/chats/new, POST /api/v1/chats/id, POST /api/chat/completions. -/
inductive ApiCall where
  | chatsNew (payload : Chat)
  | chatsUpdate (chatID : String) (payload : Chat)
  | chatCompletions (payload : CompletionRequest)
deriving DecidableEq

/-- Backend oracle: what the remote chat backend answers to each call.
For chat creation the Option String is the top-level id field of the
decoded response (none when absent or not a string); the Except layer
carries transport and non-2xx failures, with the callAPI error text. -/
structure Backend where
  createChatResp : Chat → Except String (Option String)
  updateChatResp : String → Chat → Except String Unit
  completionResp : CompletionRequest → Except String Unit

/-- Per-run identifier and clock draws: the two uuid.New results and the
time.Now results observed at step 1 (t1), step 2 (t2) and in the
completion request environment (dt3), plus the configured model name. -/
structure RunEnv where
  modelName : String
  userMsgID : String
  assistantMsgID : String
  t1 : Nat
  t2 : Nat
  dt3 : String
deriving DecidableEq

/-- Step 1 (createChat): build the user message and creation payload,
post it, and extract the chat id, wrapping failures as the source does. -/
def createChat (env : RunEnv) (B : Backend) (userQuestion : String) :
    ApiCall × Except String String :=
  let payload := createChatPayload userQuestion env.userMsgID env.t1 env.modelName
  let call := ApiCall.chatsNew payload
  match B.createChatResp payload with
  | Except.error e => (call, Except.error ("failed to create chat: " ++ e))
  | Except.ok none => (call, Except.error "failed to extract top-level ChatID from API response")
  | Except.ok (some chatID) =>
    if chatID = "" then
      (call, Except.error "failed to extract top-level ChatID from API response")
    else (call, Except.ok chatID)

/-- Free-text description attached to an update step for logging and
error annotation. -/
def stepDescription (step : Nat) : String :=
  if step = 2 then "Inject empty assistant message"
  else if step = 4 then "Update chat with model details"
  else ""

/-- Steps 2 and 4 (updateChat): rebuild the assistant message with a
fresh timestamp, post the full chat snapshot, wrap failures with the
step description. -/
def updateChat (env : RunEnv) (B : Backend) (chatID : String) (step : Nat)
    (userMsgID assistantMsgID question : String) (userMessage : Message)
    (now : Nat) : ApiCall × Except String Unit :=
  let payload := updateChatPayload chatID question userMsgID assistantMsgID
    userMessage now env.modelName
  let call := ApiCall.chatsUpdate chatID payload
  match B.updateChatResp chatID payload with
  | Except.error e =>
    (call, Except.error ("failed to " ++ stepDescription step ++ ": " ++ e))
  | Except.ok _ => (call, Except.ok ())

/-- Step 3 (triggerCompletion): build and post the completion request. -/
def triggerCompletion (B : Backend) (chatID assistantMsgID : String)
    (userMessage : Message) (modelName dt knowledgeID documentID : String) :
    ApiCall × Except String Unit :=
  let payload := completionRequestPayload chatID assistantMsgID userMessage
    modelName dt knowledgeID documentID
  let call := ApiCall.chatCompletions payload
  match B.completionResp payload with
  | Except.error e => (call, Except.error ("failed to trigger completion: " ++ e))
  | Except.ok _ => (call, Except.ok ())

/-- Model of pkg/webui CreateMainChat: trim the prompt, then run steps
1 to 3 in order, aborting on the first failure and returning the chat id
on success.  The trace lists every call issued, in order.  As in the
source, the knowledge id handed to triggerCompletion is the empty
string; only the document id is forwarded. -/
def createMainChat (env : RunEnv) (B : Backend) (prompt documentID : String) :
    List ApiCall × Except String String :=
  let question := (trimSpace prompt)
  let userMessage := buildUserMessage question env.userMsgID env.t1 env.modelName
  match createChat env B question with
  | (c1, Except.error e) => ([c1], Except.error e)
  | (c1, Except.ok chatID) =>
    match updateChat env B chatID 2 env.userMsgID env.assistantMsgID question
        userMessage env.t2 with
    | (c2, Except.error e) => ([c1, c2], Except.error e)
    | (c2, Except.ok _) =>
      match triggerCompletion B chatID env.assistantMsgID userMessage
          env.modelName env.dt3 "" documentID with
      | (c3, Except.error e) => ([c1, c2, c3], Except.error e)
      | (c3, Except.ok _) => ([c1, c2, c3], Except.ok chatID)

/- ------------------------------------------------------------------ -/
/- internal/webui/webui.go: the CLI duplicate of CreateMainChat        -/
/- ------------------------------------------------------------------ -/

/-- Step kinds of the internal duplicate's trace.  Its payload
construction duplicates the pkg builders above (minus the tools field);
what differs is the outcome handling, so the internal model records only
which steps ran and how the run ended. -/
inductive StepKind where
  | createChatStep
  | updateChatStep
  | triggerCompletionStep
deriving DecidableEq

/-- Backend oracle for the internal duplicate; each step is consulted at
most once in a run, so plain results suffice. -/
structure InternalBackend where
  createResp : Except String (Option String)
  updateResp : Except String Unit
  triggerResp : Except String Unit

/-- How a run of the internal CreateMainChat ends: os.Exit with the
given code after printing the annotated error, or a normal return of
(error, string) to the caller. -/
inductive InternalOutcome where
  | exited (code : Nat) (printedError : String)
  | returned (err : Option String) (chatID : String)
deriving DecidableEq

/-- Tests whether the outcome is a normal return to the caller. -/
def InternalOutcome.isReturned : InternalOutcome → Bool
  | InternalOutcome.returned _ _ => true
  | _ => false

/-- Model of internal/webui CreateMainChat: reads the question from the
prompt, falling back to a trimmed stdin line; on any step failure it
prints the annotated error and exits the process with code 1 instead of
returning the error; on success it returns (nil, ""). -/
def internalCreateMainChat (B : InternalBackend) (prompt stdinLine : String) :
    List StepKind × InternalOutcome :=
  let _question := if prompt = "" then (trimSpace stdinLine) else prompt
  match B.createResp with
  | Except.error e =>
    ([StepKind.createChatStep],
     InternalOutcome.exited 1 ("failed to create chat: " ++ e))
  | Except.ok none =>
    ([StepKind.createChatStep],
     InternalOutcome.exited 1 "failed to extract top-level ChatID from API response")
  | Except.ok (some chatID) =>
    if chatID = "" then
      ([StepKind.createChatStep],
       InternalOutcome.exited 1 "failed to extract top-level ChatID from API response")
    else
      match B.updateResp with
      | Except.error e =>
        ([StepKind.createChatStep, StepKind.updateChatStep],
         InternalOutcome.exited 1 ("failed to Inject empty assistant message: " ++ e))
      | Except.ok _ =>
        match B.triggerResp with
        | Except.error e =>
          ([StepKind.createChatStep, StepKind.updateChatStep,
            StepKind.triggerCompletionStep],
           InternalOutcome.exited 1 ("failed to trigger completion: " ++ e))
        | Except.ok _ =>
          ([StepKind.createChatStep, StepKind.updateChatStep,
            StepKind.triggerCompletionStep],
           InternalOutcome.returned none "")

/- ------------------------------------------------------------------ -/
/- HTTP front door: createChatHandler and the knowledge ingestion      -/
/- ------------------------------------------------------------------ -/

/-- Decoded body of POST /api/v1/chat. -/
structure CreateChatRequest where
  prompt : String
  content : String := ""
  knowledgeID : String := ""
  documentID : String := ""
deriving DecidableEq

/-- Model of AddFileToKnowledgeCollection.  The local temp-file and
upload steps are folded into the upload oracle (an error covers a
failure of any of them, the Option String is the id field of the upload
response); the add-to-collection call is the second oracle.  The file id
is returned only when present and non-empty. -/
def addFileToKnowledgeCollection (uploadResp : Except String (Option String))
    (addResp : Except String Unit) : Except String String :=
  match uploadResp with
  | Except.error e => Except.error ("failed to upload file: " ++ e)
  | Except.ok none => Except.error "failed to extract file_id from upload response"
  | Except.ok (some fileID) =>
    if fileID = "" then Except.error "failed to extract file_id from upload response"
    else
      match addResp with
      | Except.error e => Except.error ("failed to add file to knowledge collection: " ++ e)
      | Except.ok _ => Except.ok fileID

/-- Event in the handler flow: a successful knowledge ingestion with the
document id it produced, or an orchestrator call. -/
inductive FlowEvent where
  | ingestDoc (content knowledgeID fileID : String)
  | api (c : ApiCall)
deriving DecidableEq

/-- HTTP response of the chat handler. -/
inductive HandlerResult where
  | badRequest (msg : String)
  | serverError (msg : String)
  | okResp (chatID status : String)
deriving DecidableEq

/-- Maps the orchestrator result to the handler response: 500 with the
error text, or 200 with the chat id and fixed status string. -/
def handlerOutcome : Except String String → HandlerResult
  | Except.error e => HandlerResult.serverError e
  | Except.ok chatID => HandlerResult.okResp chatID "chat process initiated"

/-- Model of createChatHandler: when content is supplied it first
requires a knowledge id, ingests the content into the collection, and
only then runs the orchestrator with the resulting document id; without
content it runs the orchestrator with the caller-supplied document id. -/
def createChatHandler (env : RunEnv) (B : Backend)
    (uploadResp : Except String (Option String)) (addResp : Except String Unit)
    (req : CreateChatRequest) : List FlowEvent × HandlerResult :=
  if req.content ≠ "" then
    if req.knowledgeID = "" then
      ([], HandlerResult.badRequest "knowledge_id is required when providing content")
    else
      match addFileToKnowledgeCollection uploadResp addResp with
      | Except.error e =>
        ([], HandlerResult.serverError ("failed to add content to knowledge collection: " ++ e))
      | Except.ok documentID =>
        let r := createMainChat env B req.prompt documentID
        (FlowEvent.ingestDoc req.content req.knowledgeID documentID
           :: r.fst.map FlowEvent.api,
         handlerOutcome r.snd)
  else
    let r := createMainChat env B req.prompt req.documentID
    (r.fst.map FlowEvent.api, handlerOutcome r.snd)

/- ------------------------------------------------------------------ -/
/- Derived payload abbreviations for one orchestrator run              -/
/- ------------------------------------------------------------------ -/

/-- User message built at step 1 of a run. -/
def runUserMessage (env : RunEnv) (prompt : String) : Message :=
  buildUserMessage (trimSpace prompt) env.userMsgID env.t1 env.modelName

/-- Payload of the step-1 chat-creation call of a run. -/
def step1Payload (env : RunEnv) (prompt : String) : Chat :=
  createChatPayload (trimSpace prompt) env.userMsgID env.t1 env.modelName

/-- Payload of the step-2 update call of a run, for the given chat id. -/
def step2Payload (env : RunEnv) (prompt chatID : String) : Chat :=
  updateChatPayload chatID (trimSpace prompt) env.userMsgID env.assistantMsgID
    (runUserMessage env prompt) env.t2 env.modelName

/-- Payload of the step-3 completion call of a run. -/
def step3Payload (env : RunEnv) (prompt documentID chatID : String) :
    CompletionRequest :=
  completionRequestPayload chatID env.assistantMsgID (runUserMessage env prompt)
    env.modelName env.dt3 "" documentID

/- ------------------------------------------------------------------ -/
/- Concrete fixtures used by witnesses and counterexamples             -/
/- ------------------------------------------------------------------ -/

/-- A concrete run environment. -/
def demoEnv : RunEnv :=
  { modelName := "gemma3", userMsgID := "user-1", assistantMsgID := "asst-1",
    t1 := 100, t2 := 200, dt3 := "2026-10-11 12:00:00" }

/-- A backend that accepts every call and returns chat id chat-1. -/
def demoBackend : Backend :=
  { createChatResp := fun _ => Except.ok (some "chat-1"),
    updateChatResp := fun _ _ => Except.ok (),
    completionResp := fun _ => Except.ok () }

/-- A backend whose update endpoint fails. -/
def failingUpdateBackend : Backend :=
  { createChatResp := fun _ => Except.ok (some "chat-1"),
    updateChatResp := fun _ _ => Except.error "boom",
    completionResp := fun _ => Except.ok () }

/-- An internal-run backend whose chat creation fails. -/
def failingCreateInternalBackend : InternalBackend :=
  { createResp := Except.error "connection refused",
    updateResp := Except.ok (),
    triggerResp := Except.ok () }

/-- An internal-run backend whose update step fails. -/
def failingUpdateInternalBackend : InternalBackend :=
  { createResp := Except.ok (some "chat-1"),
    updateResp := Except.error "boom",
    triggerResp := Except.ok () }

/-- An internal-run backend whose completion trigger fails. -/
def failingTriggerInternalBackend : InternalBackend :=
  { createResp := Except.ok (some "chat-1"),
    updateResp := Except.ok (),
    triggerResp := Except.error "busy" }

/-- The user turn of the demo conversation. -/
def demoUserMsg : Message :=
  buildUserMessage "What is the capital of France?" "user-1" 100 "gemma3"

/-- The assistant turn before any content streamed in. -/
def demoPendingAssistant : Message :=
  { id := "asst-1", role := "assistant", content := "", timestamp := 200,
    parentId := "user-1", modelName := "gemma3", modelIdx := 0,
    models := ["gemma3"] }

/-- The assistant turn once content has streamed in. -/
def demoDoneAssistant : Message :=
  { demoPendingAssistant with content := "Paris", timestamp := 205 }

/-- Chat state holding the demo user turn and the given assistant turn. -/
def demoChatState (a : Message) : Chat :=
  { id := "chat-1", title := "What is the capital of France?",
    models := ["gemma3"], messages := [demoUserMsg, a], tools := [],
    history := { currentId := a.id,
                 messages := mapInsert (mapInsert [] demoUserMsg.id demoUserMsg) a.id a } }

/-- A fetch sequence whose first response still has empty assistant
content and whose second has the final content: the claimed poller
should succeed on attempt 2 of its 15-attempt budget. -/
def demoFetchSequence : Nat → Except String (List Chat) := fun n =>
  if n = 0 then Except.ok [demoChatState demoPendingAssistant]
  else Except.ok [demoChatState demoDoneAssistant]

/-- A concrete decoded registry response. -/
def demoVehicle : VehicleResponse := { registrationNumber := "ab12cde" }

/-- A concrete registry response whose registration is too short to map. -/
def demoShortVehicle : VehicleResponse := { registrationNumber := "ab" }

/- ------------------------------------------------------------------ -/
/- Helper lemmas                                                       -/
/- ------------------------------------------------------------------ -/

/-- A list always starts with itself, whatever follows. -/
theorem isPrefixOf_append_self (l t : List Char) : l.isPrefixOf (l ++ t) = true := by
  induction l with
  | nil => simp [List.isPrefixOf]
  | cons c rest ih => simp [List.isPrefixOf, ih]

/-- A string extending p on the right cannot equal a string that does
not start with p. -/
theorem append_left_ne (p m e : String)
    (h : p.data.isPrefixOf m.data = false) : p ++ e ≠ m := by
  intro hEq
  have hdata : p.data ++ e.data = m.data := by
    rw [← hEq]; rfl
  have hpre : p.data.isPrefixOf m.data = true := by
    rw [← hdata]
    exact isPrefixOf_append_self p.data e.data
  rw [h] at hpre
  exact Bool.false_ne_true hpre

/-- Looking up the first key of a two-entry map literal with distinct
keys yields the first value. -/
theorem histLookup_pair_left (k1 k2 : String) (v1 v2 : Message) (h : k1 ≠ k2) :
    histLookup (mapInsert (mapInsert [] k1 v1) k2 v2) k1 = some v1 := by
  simp [histLookup, mapInsert, h, Ne.symm h]

/-- Looking up the second key of a two-entry map literal yields the
second value. -/
theorem histLookup_pair_right (k1 k2 : String) (v1 v2 : Message) :
    histLookup (mapInsert (mapInsert [] k1 v1) k2 v2) k2 = some v2 := by
  by_cases h : k1 = k2 <;> simp [histLookup, mapInsert, h]

/-- A successful knowledge ingestion never yields an empty document id. -/
theorem addFileToKnowledgeCollection_ok_ne (uploadResp : Except String (Option String))
    (addResp : Except String Unit) (docID : String)
    (h : addFileToKnowledgeCollection uploadResp addResp = Except.ok docID) :
    docID ≠ "" := by
  unfold addFileToKnowledgeCollection at h
  rcases uploadResp with e | fid
  · simp at h
  · rcases fid with _ | fid
    · simp at h
    · by_cases hf : fid = ""
      · simp [hf] at h
      · rcases addResp with e | u
        · simp [hf] at h
        · simp [hf] at h
          subst h
          exact hf

/- ------------------------------------------------------------------ -/
/- Claim theorems                                                      -/
/- ------------------------------------------------------------------ -/

/-- C1: for every target address whose host segment (as produced by the
host/port split) parses as a literal IPv4 or IPv6 address, safeDialer
proceeds to dial the network layer; for every other address, including
an empty host, it refuses the connection with the hostname-blocked
error, before any name resolution. -/
theorem safeDialer_literal_ip_policy (network addr host port : String)
    (h : splitHostPort addr = Except.ok (host, port)) :
    (parseIPOk host = true → safeDialer network addr = DialResult.dialed network addr) ∧
    (parseIPOk host = false →
      safeDialer network addr =
        DialResult.refused
          ("hostname lookup blocked: connection attempt to \x27" ++ host ++ "\x27 is prohibited")) := by
  constructor <;> intro hp <;> simp [safeDialer, h, hp]

/-- Witness for C1: a literal IPv4 host with a port is dialed; a DNS
name with a port is refused; an empty host is refused. -/
theorem safeDialer_literal_ip_policy_witness :
    safeDialer "tcp" "192.168.1.1:8080" = DialResult.dialed "tcp" "192.168.1.1:8080" ∧
    safeDialer "tcp" "example.com:80" =
      DialResult.refused
        ("hostname lookup blocked: connection attempt to \x27" ++ "example.com" ++ "\x27 is prohibited") ∧
    safeDialer "tcp" ":80" =
      DialResult.refused
        ("hostname lookup blocked: connection attempt to \x27" ++ "" ++ "\x27 is prohibited") :=
  ⟨(safeDialer_literal_ip_policy "tcp" "192.168.1.1:8080" "192.168.1.1" "8080"
      (by decide)).1 (by decide),
   (safeDialer_literal_ip_policy "tcp" "example.com:80" "example.com" "80"
      (by decide)).2 (by decide),
   (safeDialer_literal_ip_policy "tcp" ":80" "" "80"
      (by decide)).2 (by decide)⟩

/-- C10: when the address cannot be split into host and port, safeDialer
treats the whole address as the host: it dials exactly when the whole
address is an IP literal, and refuses otherwise. -/
theorem safeDialer_no_port_fallback (network addr e : String)
    (h : splitHostPort addr = Except.error e) :
    (parseIPOk addr = true → safeDialer network addr = DialResult.dialed network addr) ∧
    (parseIPOk addr = false →
      safeDialer network addr =
        DialResult.refused
          ("hostname lookup blocked: connection attempt to \x27" ++ addr ++ "\x27 is prohibited")) := by
  constructor <;> intro hp <;> simp [safeDialer, h, hp]

/-- Witness for C10: a bare IP literal with no port is dialed; a bare
hostname with no port is refused. -/
theorem safeDialer_no_port_fallback_witness :
    safeDialer "tcp" "127.0.0.1" = DialResult.dialed "tcp" "127.0.0.1" ∧
    safeDialer "tcp" "localhost" =
      DialResult.refused
        ("hostname lookup blocked: connection attempt to \x27" ++ "localhost" ++ "\x27 is prohibited") :=
  ⟨(safeDialer_no_port_fallback "tcp" "127.0.0.1" "missing port in address"
      (by decide)).1 (by decide),
   (safeDialer_no_port_fallback "tcp" "localhost" "missing port in address"
      (by decide)).2 (by decide)⟩

/-- C2 (code bug): on a fetch sequence whose first response has empty
assistant content and whose second has the content (N = 1 < 15), the
source returns the transient not-ready error after the single fetch it
performs instead of retrying: fetchFinalChatWithPolling contains no
retry loop, and the declared budget MaxPollingAttempts = 15 and interval
PollingInterval are never consulted, although a second fetch would have
produced the content. -/
theorem fetchFinalChatWithPolling_single_fetch_bug :
    fetchFinalChatWithPolling "asst-1" (demoFetchSequence 0) =
      Except.error "assistant message content is empty, continuing poll" ∧
    fetchFinalChatWithPolling "asst-1" (demoFetchSequence 1) = Except.ok "Paris" ∧
    MaxPollingAttempts = 15 ∧ PollingInterval = 1 := by
  refine ⟨?_, ?_, rfl, rfl⟩ <;> decide

/-- C6: the poll check reports each unmet condition with its own
distinct transient reason (empty response array, assistant id absent
from the history map, wrong role, empty content), the empty-array case
is one of the continuing-poll reasons rather than a hard failure, and a
hard fetch failure is reported with a wrapper that is never one of the
continuing-poll reasons. -/
theorem fetchFinalChat_distinct_reasons (assistantMsgID : String) :
    (fetchFinalChatWithPolling assistantMsgID (Except.ok []) =
       Except.error "chat response array was empty, continuing poll") ∧
    (∀ resp rest, histLookup resp.history.messages assistantMsgID = none →
       fetchFinalChatWithPolling assistantMsgID (Except.ok (resp :: rest)) =
         Except.error "assistant message ID not yet present in history, continuing poll") ∧
    (∀ resp rest m, histLookup resp.history.messages assistantMsgID = some m →
       m.role ≠ "assistant" →
       fetchFinalChatWithPolling assistantMsgID (Except.ok (resp :: rest)) =
         Except.error "found message, but role is incorrect, continuing poll") ∧
    (∀ resp rest m, histLookup resp.history.messages assistantMsgID = some m →
       m.role = "assistant" → m.content = "" →
       fetchFinalChatWithPolling assistantMsgID (Except.ok (resp :: rest)) =
         Except.error "assistant message content is empty, continuing poll") ∧
    pollNotReadyMsgs.Pairwise (fun a b => a ≠ b) ∧
    "chat response array was empty, continuing poll" ∈ pollNotReadyMsgs ∧
    (∀ e, fetchFinalChatWithPolling assistantMsgID (Except.error e) =
         Except.error ("failed to fetch chat state: " ++ e) ∧
       ("failed to fetch chat state: " ++ e) ∉ pollNotReadyMsgs) := by
  refine ⟨rfl, ?_, ?_, ?_, by decide, by decide, ?_⟩
  · intro resp rest hl
    simp [fetchFinalChatWithPolling, hl]
  · intro resp rest m hl hr
    simp [fetchFinalChatWithPolling, hl, hr]
  · intro resp rest m hl hr hc
    simp [fetchFinalChatWithPolling, hl, hr, hc]
  · intro e
    refine ⟨rfl, ?_⟩
    intro hmem
    simp only [pollNotReadyMsgs, List.mem_cons, List.not_mem_nil, or_false] at hmem
    rcases hmem with h | h | h | h <;>
      exact append_left_ne "failed to fetch chat state: " _ e (by decide) h

/-- Witness for C6: a fetched state lacking the expected assistant id is
reported with the id-absent transient reason, and a concrete hard fetch
failure is not one of the continuing-poll reasons. -/
theorem fetchFinalChat_distinct_reasons_witness :
    fetchFinalChatWithPolling "ghost-id" (Except.ok [demoChatState demoPendingAssistant]) =
      Except.error "assistant message ID not yet present in history, continuing poll" ∧
    ("failed to fetch chat state: " ++ "timeout") ∉ pollNotReadyMsgs :=
  ⟨(fetchFinalChat_distinct_reasons "ghost-id").2.1 (demoChatState demoPendingAssistant)
      [] (by decide),
   ((fetchFinalChat_distinct_reasons "ghost-id").2.2.2.2.2.2 "timeout").2⟩

/-- The step-1 call is always the creation payload, whatever the backend
answers. -/
theorem createChat_fst (env : RunEnv) (B : Backend) (q : String) :
    (createChat env B q).fst =
      ApiCall.chatsNew (createChatPayload q env.userMsgID env.t1 env.modelName) := by
  simp only [createChat]
  rcases B.createChatResp (createChatPayload q env.userMsgID env.t1 env.modelName) with e | o
  · rfl
  · rcases o with _ | cid
    · rfl
    · by_cases h : cid = "" <;> simp [h]

/-- The update call is always the update payload, whatever the backend
answers. -/
theorem updateChat_fst (env : RunEnv) (B : Backend) (chatID : String) (step : Nat)
    (uid aid q : String) (um : Message) (now : Nat) :
    (updateChat env B chatID step uid aid q um now).fst =
      ApiCall.chatsUpdate chatID (updateChatPayload chatID q uid aid um now env.modelName) := by
  simp only [updateChat]
  rcases B.updateChatResp chatID (updateChatPayload chatID q uid aid um now env.modelName)
    with e | u <;> rfl

/-- The completion call is always the completion payload, whatever the
backend answers. -/
theorem triggerCompletion_fst (B : Backend) (chatID aid : String) (um : Message)
    (modelName dt kid did : String) :
    (triggerCompletion B chatID aid um modelName dt kid did).fst =
      ApiCall.chatCompletions (completionRequestPayload chatID aid um modelName dt kid did) := by
  simp only [triggerCompletion]
  rcases B.completionResp (completionRequestPayload chatID aid um modelName dt kid did)
    with e | u <;> rfl

/-- Every call in a run trace is the step-1 creation payload, a step-2
update payload for some chat id, or the step-3 completion payload for
some chat id. -/
theorem createMainChat_trace_shape (env : RunEnv) (B : Backend)
    (prompt documentID : String) :
    ∀ c ∈ (createMainChat env B prompt documentID).fst,
      c = ApiCall.chatsNew (step1Payload env prompt) ∨
      (∃ chatID, c = ApiCall.chatsUpdate chatID (step2Payload env prompt chatID)) ∨
      (∃ chatID, c = ApiCall.chatCompletions (step3Payload env prompt documentID chatID)) := by
  intro c hc
  simp only [createMainChat] at hc
  rcases h1 : createChat env B (trimSpace prompt) with ⟨c1, r1⟩
  rw [h1] at hc
  have hc1 : c1 = ApiCall.chatsNew (step1Payload env prompt) := by
    have := createChat_fst env B (trimSpace prompt)
    rw [h1] at this
    simpa [step1Payload] using this
  cases r1 with
  | error e =>
    simp only [List.mem_singleton] at hc
    exact Or.inl (hc ▸ hc1)
  | ok chatID =>
    dsimp only at hc
    rcases h2 : updateChat env B chatID 2 env.userMsgID env.assistantMsgID (trimSpace prompt)
        (buildUserMessage (trimSpace prompt) env.userMsgID env.t1 env.modelName) env.t2
      with ⟨c2, r2⟩
    rw [h2] at hc
    have hc2 : c2 = ApiCall.chatsUpdate chatID (step2Payload env prompt chatID) := by
      have := updateChat_fst env B chatID 2 env.userMsgID env.assistantMsgID (trimSpace prompt)
        (buildUserMessage (trimSpace prompt) env.userMsgID env.t1 env.modelName) env.t2
      rw [h2] at this
      simpa [step2Payload, runUserMessage] using this
    cases r2 with
    | error e =>
      simp only [List.mem_cons, List.mem_singleton, List.not_mem_nil, or_false] at hc
      rcases hc with hc | hc
      · exact Or.inl (hc ▸ hc1)
      · exact Or.inr (Or.inl ⟨chatID, hc ▸ hc2⟩)
    | ok u =>
      dsimp only at hc
      rcases h3 : triggerCompletion B chatID env.assistantMsgID
          (buildUserMessage (trimSpace prompt) env.userMsgID env.t1 env.modelName)
          env.modelName env.dt3 "" documentID with ⟨c3, r3⟩
      rw [h3] at hc
      have hc3 : c3 = ApiCall.chatCompletions (step3Payload env prompt documentID chatID) := by
        have := triggerCompletion_fst B chatID env.assistantMsgID
          (buildUserMessage (trimSpace prompt) env.userMsgID env.t1 env.modelName)
          env.modelName env.dt3 "" documentID
        rw [h3] at this
        simpa [step3Payload, runUserMessage] using this
      have hmem : c = c1 ∨ c = c2 ∨ c = c3 := by
        cases r3 with
        | error e =>
          simpa [List.mem_cons, List.mem_singleton] using hc
        | ok u2 =>
          simpa [List.mem_cons, List.mem_singleton] using hc
      rcases hmem with hc | hc | hc
      · exact Or.inl (hc ▸ hc1)
      · exact Or.inr (Or.inl ⟨chatID, hc ▸ hc2⟩)
      · exact Or.inr (Or.inr ⟨chatID, hc ▸ hc3⟩)

/-- C3 counterexample: with a backend whose chat creation fails, the
internal/webui duplicate of CreateMainChat (one of the two orchestrator
entry points the claim covers) terminates the process with exit code 1
after printing the annotated error; no error value is returned to the
caller, contradicting the claim as stated. -/
theorem internal_orchestrator_exits_counterexample :
    (internalCreateMainChat failingCreateInternalBackend "q" "").snd =
      InternalOutcome.exited 1 ("failed to create chat: " ++ "connection refused") ∧
    ((internalCreateMainChat failingCreateInternalBackend "q" "").snd).isReturned = false := by
  decide

/-- C3 amended: when a step's backend call fails, both orchestrator
copies abort the remaining steps without retrying any step; the
pkg/webui copy returns the error annotated as failed-to step-description
colon cause to its caller, while the internal/webui copy prints the same
annotated error and exits the process with code 1 instead of returning
it.  Each trace equality shows the failing step was reached exactly once
and nothing ran after it. -/
theorem createMainChat_abort_on_failure (env : RunEnv) (B : Backend)
    (IB : InternalBackend) (prompt documentID : String) :
    (∀ e, B.createChatResp (step1Payload env prompt) = Except.error e →
      createMainChat env B prompt documentID =
        ([ApiCall.chatsNew (step1Payload env prompt)],
         Except.error ("failed to create chat: " ++ e))) ∧
    (∀ chatID e, B.createChatResp (step1Payload env prompt) = Except.ok (some chatID) →
      chatID ≠ "" →
      B.updateChatResp chatID (step2Payload env prompt chatID) = Except.error e →
      createMainChat env B prompt documentID =
        ([ApiCall.chatsNew (step1Payload env prompt),
          ApiCall.chatsUpdate chatID (step2Payload env prompt chatID)],
         Except.error ("failed to " ++ stepDescription 2 ++ ": " ++ e))) ∧
    (∀ chatID e, B.createChatResp (step1Payload env prompt) = Except.ok (some chatID) →
      chatID ≠ "" →
      B.updateChatResp chatID (step2Payload env prompt chatID) = Except.ok () →
      B.completionResp (step3Payload env prompt documentID chatID) = Except.error e →
      createMainChat env B prompt documentID =
        ([ApiCall.chatsNew (step1Payload env prompt),
          ApiCall.chatsUpdate chatID (step2Payload env prompt chatID),
          ApiCall.chatCompletions (step3Payload env prompt documentID chatID)],
         Except.error ("failed to trigger completion: " ++ e))) ∧
    (∀ e, IB.createResp = Except.error e →
      internalCreateMainChat IB prompt "" =
        ([StepKind.createChatStep],
         InternalOutcome.exited 1 ("failed to create chat: " ++ e))) ∧
    (∀ chatID e, IB.createResp = Except.ok (some chatID) → chatID ≠ "" →
      IB.updateResp = Except.error e →
      internalCreateMainChat IB prompt "" =
        ([StepKind.createChatStep, StepKind.updateChatStep],
         InternalOutcome.exited 1 ("failed to Inject empty assistant message: " ++ e))) ∧
    (∀ chatID e, IB.createResp = Except.ok (some chatID) → chatID ≠ "" →
      IB.updateResp = Except.ok () → IB.triggerResp = Except.error e →
      internalCreateMainChat IB prompt "" =
        ([StepKind.createChatStep, StepKind.updateChatStep,
          StepKind.triggerCompletionStep],
         InternalOutcome.exited 1 ("failed to trigger completion: " ++ e))) := by
  refine ⟨?_, ?_, ?_, ?_, ?_, ?_⟩
  · intro e h
    simp only [step1Payload] at h
    simp [createMainChat, createChat, h, step1Payload]
  · intro chatID e h1 hne h2
    simp only [step1Payload] at h1
    simp only [step2Payload, runUserMessage] at h2
    simp [createMainChat, createChat, updateChat, h1, hne, h2, step1Payload,
      step2Payload, runUserMessage]
  · intro chatID e h1 hne h2 h3
    simp only [step1Payload] at h1
    simp only [step2Payload, runUserMessage] at h2
    simp only [step3Payload, runUserMessage] at h3
    simp [createMainChat, createChat, updateChat, triggerCompletion, h1, hne, h2, h3,
      step1Payload, step2Payload, step3Payload, runUserMessage]
  · intro e h
    simp [internalCreateMainChat, h]
  · intro chatID e h1 hne h2
    simp [internalCreateMainChat, h1, hne, h2]
  · intro chatID e h1 hne h2 h3
    simp [internalCreateMainChat, h1, hne, h2, h3]

/-- Witness for C3 (amended): with a backend whose update call fails,
the pkg orchestrator issues exactly the creation and update calls and
returns the annotated step-2 error; the internal copy exits with the
annotated step-2 error on an update failure and with the annotated
step-3 error on a trigger failure. -/
theorem createMainChat_abort_on_failure_witness :
    (createMainChat demoEnv failingUpdateBackend "What is the capital of France?" "" =
      ([ApiCall.chatsNew (step1Payload demoEnv "What is the capital of France?"),
        ApiCall.chatsUpdate "chat-1"
          (step2Payload demoEnv "What is the capital of France?" "chat-1")],
       Except.error ("failed to " ++ stepDescription 2 ++ ": " ++ "boom"))) ∧
    (internalCreateMainChat failingUpdateInternalBackend "q" "" =
      ([StepKind.createChatStep, StepKind.updateChatStep],
       InternalOutcome.exited 1 ("failed to Inject empty assistant message: " ++ "boom"))) ∧
    (internalCreateMainChat failingTriggerInternalBackend "q" "" =
      ([StepKind.createChatStep, StepKind.updateChatStep,
        StepKind.triggerCompletionStep],
       InternalOutcome.exited 1 ("failed to trigger completion: " ++ "busy"))) :=
  ⟨(createMainChat_abort_on_failure demoEnv failingUpdateBackend
      failingCreateInternalBackend "What is the capital of France?" "").2.1
     "chat-1" "boom" rfl (by decide) rfl,
   (createMainChat_abort_on_failure demoEnv failingUpdateBackend
      failingUpdateInternalBackend "q" "").2.2.2.2.1
     "chat-1" "boom" rfl (by decide) rfl,
   (createMainChat_abort_on_failure demoEnv failingUpdateBackend
      failingTriggerInternalBackend "q" "").2.2.2.2.2
     "chat-1" "busy" rfl (by decide) rfl rfl⟩

/-- The run trace is one of three explicit prefixes of the full
three-step sequence, for some chat id. -/
theorem createMainChat_trace_cases (env : RunEnv) (B : Backend)
    (prompt documentID : String) :
    (createMainChat env B prompt documentID).fst =
      [ApiCall.chatsNew (step1Payload env prompt)] ∨
    (∃ chatID, (createMainChat env B prompt documentID).fst =
       [ApiCall.chatsNew (step1Payload env prompt),
        ApiCall.chatsUpdate chatID (step2Payload env prompt chatID)]) ∨
    (∃ chatID, (createMainChat env B prompt documentID).fst =
       [ApiCall.chatsNew (step1Payload env prompt),
        ApiCall.chatsUpdate chatID (step2Payload env prompt chatID),
        ApiCall.chatCompletions (step3Payload env prompt documentID chatID)]) := by
  simp only [createMainChat]
  rcases h1 : createChat env B (trimSpace prompt) with ⟨c1, r1⟩
  have hc1 : c1 = ApiCall.chatsNew (step1Payload env prompt) := by
    have := createChat_fst env B (trimSpace prompt)
    rw [h1] at this
    simpa [step1Payload] using this
  cases r1 with
  | error e => exact Or.inl (by simp [hc1])
  | ok chatID =>
    dsimp only
    rcases h2 : updateChat env B chatID 2 env.userMsgID env.assistantMsgID (trimSpace prompt)
        (buildUserMessage (trimSpace prompt) env.userMsgID env.t1 env.modelName) env.t2
      with ⟨c2, r2⟩
    have hc2 : c2 = ApiCall.chatsUpdate chatID (step2Payload env prompt chatID) := by
      have := updateChat_fst env B chatID 2 env.userMsgID env.assistantMsgID (trimSpace prompt)
        (buildUserMessage (trimSpace prompt) env.userMsgID env.t1 env.modelName) env.t2
      rw [h2] at this
      simpa [step2Payload, runUserMessage] using this
    cases r2 with
    | error e => exact Or.inr (Or.inl ⟨chatID, by simp [hc1, hc2]⟩)
    | ok u =>
      dsimp only
      rcases h3 : triggerCompletion B chatID env.assistantMsgID
          (buildUserMessage (trimSpace prompt) env.userMsgID env.t1 env.modelName)
          env.modelName env.dt3 "" documentID with ⟨c3, r3⟩
      have hc3 : c3 = ApiCall.chatCompletions (step3Payload env prompt documentID chatID) := by
        have := triggerCompletion_fst B chatID env.assistantMsgID
          (buildUserMessage (trimSpace prompt) env.userMsgID env.t1 env.modelName)
          env.modelName env.dt3 "" documentID
        rw [h3] at this
        simpa [step3Payload, runUserMessage] using this
      cases r3 with
      | error e => exact Or.inr (Or.inr ⟨chatID, by simp [hc1, hc2, hc3]⟩)
      | ok u2 => exact Or.inr (Or.inr ⟨chatID, by simp [hc1, hc2, hc3]⟩)

/-- Claim-level shape of one outbound payload: the creation payload
carries the sole user turn with current_id pointing at it; every update
payload carries the user and assistant pair with the assistant parent
pointing at the user turn and current_id pointing at the assistant
turn. -/
def payloadHistoryOk : ApiCall → Prop
  | ApiCall.chatsNew p =>
      ∃ u, p.messages = [u] ∧ p.history.currentId = u.id
  | ApiCall.chatsUpdate _ p =>
      ∃ u a, p.messages = [u, a] ∧ a.parentId = u.id ∧ p.history.currentId = a.id
  | ApiCall.chatCompletions _ => True

/-- C4: in every payload a run sends to the backend, the assistant
message's parent id equals the user message's id, and the history
current_id equals the id of the most recently added message: the user
message id in the creation payload, the assistant message id in every
update payload. -/
theorem run_payload_invariants (env : RunEnv) (B : Backend)
    (prompt documentID : String) :
    ∀ c ∈ (createMainChat env B prompt documentID).fst, payloadHistoryOk c := by
  intro c hc
  rcases createMainChat_trace_shape env B prompt documentID c hc with h | ⟨cid, h⟩ | ⟨cid, h⟩
  · subst h
    exact ⟨buildUserMessage (trimSpace prompt) env.userMsgID env.t1 env.modelName, rfl, rfl⟩
  · subst h
    exact ⟨runUserMessage env prompt,
      buildAssistantMessage env.assistantMsgID env.userMsgID env.t2 env.modelName,
      rfl, rfl, rfl⟩
  · subst h
    trivial

/-- Witness for C4: the step-2 update payload of a concrete successful
run satisfies the invariant, and is indeed sent during that run. -/
theorem run_payload_invariants_witness :
    (ApiCall.chatsUpdate "chat-1"
        (step2Payload demoEnv "What is the capital of France?" "chat-1")) ∈
      (createMainChat demoEnv demoBackend "What is the capital of France?" "").fst ∧
    payloadHistoryOk (ApiCall.chatsUpdate "chat-1"
      (step2Payload demoEnv "What is the capital of France?" "chat-1")) :=
  ⟨by decide,
   run_payload_invariants demoEnv demoBackend "What is the capital of France?" "" _ (by decide)⟩

/-- Tests whether a call is the completion trigger. -/
def ApiCall.isCompletionCall : ApiCall → Bool
  | ApiCall.chatCompletions _ => true
  | _ => false

/-- C5: a run issues the completion-trigger call at most once, and any
completion call it issues references the run's single assistant-message
id, so no second trigger is ever issued for the same id. -/
theorem completion_triggered_at_most_once (env : RunEnv) (B : Backend)
    (prompt documentID : String) :
    ((createMainChat env B prompt documentID).fst.filter ApiCall.isCompletionCall).length ≤ 1 ∧
    (∀ p, ApiCall.chatCompletions p ∈ (createMainChat env B prompt documentID).fst →
      p.messageId = env.assistantMsgID) := by
  constructor
  · rcases createMainChat_trace_cases env B prompt documentID with h | ⟨cid, h⟩ | ⟨cid, h⟩ <;>
      simp [h, ApiCall.isCompletionCall, List.filter]
  · intro p hp
    rcases createMainChat_trace_shape env B prompt documentID _ hp with h | ⟨cid, h⟩ | ⟨cid, h⟩
    · exact absurd h (by simp)
    · exact absurd h (by simp)
    · cases h
      rfl

/-- Witness for C5: in a concrete successful run the completion call is
issued exactly once and references the run's assistant-message id. -/
theorem completion_triggered_at_most_once_witness :
    ((createMainChat demoEnv demoBackend "What is the capital of France?" "").fst.filter
        ApiCall.isCompletionCall).length ≤ 1 ∧
    (step3Payload demoEnv "What is the capital of France?" "" "chat-1").messageId =
      demoEnv.assistantMsgID :=
  ⟨(completion_triggered_at_most_once demoEnv demoBackend
      "What is the capital of France?" "").1,
   (completion_triggered_at_most_once demoEnv demoBackend
      "What is the capital of France?" "").2 _ (by decide)⟩

/-- C7: each step's payload takes its timestamp from that step's own
clock reading (t1 at creation, t2 for the assistant message rebuilt
inside the update, dt3 in the completion environment), and every update
payload carries the complete message list (the unchanged user turn and
the assistant turn) and the full history snapshot keyed by the two
message ids, with current_id set to the assistant-message id. -/
theorem payload_freshness_and_full_snapshot (env : RunEnv) (B : Backend)
    (prompt documentID : String) (hids : env.userMsgID ≠ env.assistantMsgID) :
    (∀ p, ApiCall.chatsNew p ∈ (createMainChat env B prompt documentID).fst →
       ∃ u, p.messages = [u] ∧ u.timestamp = env.t1) ∧
    (∀ chatID p, ApiCall.chatsUpdate chatID p ∈ (createMainChat env B prompt documentID).fst →
       ∃ u a, p.messages = [u, a] ∧
         u = runUserMessage env prompt ∧ u.timestamp = env.t1 ∧
         a.id = env.assistantMsgID ∧ a.timestamp = env.t2 ∧
         histLookup p.history.messages env.userMsgID = some u ∧
         histLookup p.history.messages env.assistantMsgID = some a ∧
         p.history.currentId = env.assistantMsgID) ∧
    (∀ p, ApiCall.chatCompletions p ∈ (createMainChat env B prompt documentID).fst →
       p.environmentData.currentDatetime = env.dt3) := by
  refine ⟨?_, ?_, ?_⟩
  · intro p hp
    rcases createMainChat_trace_shape env B prompt documentID _ hp with h | ⟨cid, h⟩ | ⟨cid, h⟩
    · cases h
      exact ⟨buildUserMessage (trimSpace prompt) env.userMsgID env.t1 env.modelName, rfl, rfl⟩
    · exact absurd h (by simp)
    · exact absurd h (by simp)
  · intro chatID p hp
    rcases createMainChat_trace_shape env B prompt documentID _ hp with h | ⟨cid, h⟩ | ⟨cid, h⟩
    · exact absurd h (by simp)
    · injection h with h1 h2
      subst h2
      refine ⟨runUserMessage env prompt,
        buildAssistantMessage env.assistantMsgID env.userMsgID env.t2 env.modelName,
        rfl, rfl, rfl, rfl, rfl, ?_, ?_, rfl⟩
      · have := histLookup_pair_left env.userMsgID env.assistantMsgID
          (runUserMessage env prompt)
          (buildAssistantMessage env.assistantMsgID env.userMsgID env.t2 env.modelName) hids
        simpa [step2Payload, updateChatPayload, runUserMessage, buildUserMessage,
          buildAssistantMessage] using this
      · have := histLookup_pair_right env.userMsgID env.assistantMsgID
          (runUserMessage env prompt)
          (buildAssistantMessage env.assistantMsgID env.userMsgID env.t2 env.modelName)
        simpa [step2Payload, updateChatPayload, runUserMessage, buildUserMessage,
          buildAssistantMessage] using this
    · exact absurd h (by simp)
  · intro p hp
    rcases createMainChat_trace_shape env B prompt documentID _ hp with h | ⟨cid, h⟩ | ⟨cid, h⟩
    · exact absurd h (by simp)
    · exact absurd h (by simp)
    · injection h with h1
      subst h1
      rfl

/-- Witness for C7: the step-2 payload of a concrete run has the fresh
step-2 timestamp on the assistant turn and a full two-entry history. -/
theorem payload_freshness_and_full_snapshot_witness :
    ∃ u a, (step2Payload demoEnv "What is the capital of France?" "chat-1").messages = [u, a] ∧
      u = runUserMessage demoEnv "What is the capital of France?" ∧ u.timestamp = demoEnv.t1 ∧
      a.id = demoEnv.assistantMsgID ∧ a.timestamp = demoEnv.t2 ∧
      histLookup (step2Payload demoEnv "What is the capital of France?" "chat-1").history.messages
        demoEnv.userMsgID = some u ∧
      histLookup (step2Payload demoEnv "What is the capital of France?" "chat-1").history.messages
        demoEnv.assistantMsgID = some a ∧
      (step2Payload demoEnv "What is the capital of France?" "chat-1").history.currentId =
        demoEnv.assistantMsgID :=
  (payload_freshness_and_full_snapshot demoEnv demoBackend "What is the capital of France?" ""
      (by decide)).2.1 "chat-1" _ (by decide)

/-- C8: when a caller supplies content together with a knowledge id, the
handler ingests the document into the knowledge collection first and the
resulting document id reaches every completion request of the run as a
file reference of type file; and whenever a knowledge-collection id is
supplied to the completion builder it is attached as a file reference of
type collection. -/
theorem ingestion_and_file_references (env : RunEnv) (B : Backend)
    (uploadResp : Except String (Option String)) (addResp : Except String Unit)
    (req : CreateChatRequest) (docID : String)
    (hc : req.content ≠ "") (hk : req.knowledgeID ≠ "")
    (hing : addFileToKnowledgeCollection uploadResp addResp = Except.ok docID) :
    ((createChatHandler env B uploadResp addResp req).fst =
      FlowEvent.ingestDoc req.content req.knowledgeID docID ::
        (createMainChat env B req.prompt docID).fst.map FlowEvent.api) ∧
    (∀ p, ApiCall.chatCompletions p ∈ (createMainChat env B req.prompt docID).fst →
       ({ type := "file", id := docID } : FileReference) ∈ p.files) ∧
    (∀ chatID asstID um modelName dt kid did, kid ≠ "" →
       ({ type := "collection", id := kid } : FileReference) ∈
         (completionRequestPayload chatID asstID um modelName dt kid did).files) := by
  refine ⟨?_, ?_, ?_⟩
  · simp [createChatHandler, hc, hk, hing]
  · intro p hp
    rcases createMainChat_trace_shape env B req.prompt docID _ hp with h | ⟨cid, h⟩ | ⟨cid, h⟩
    · exact absurd h (by simp)
    · exact absurd h (by simp)
    · injection h with h1
      subst h1
      have hd : docID ≠ "" := addFileToKnowledgeCollection_ok_ne uploadResp addResp docID hing
      simp [step3Payload, completionRequestPayload, runUserMessage, hd]
  · intro chatID asstID um modelName dt kid did hkid
    by_cases hdid : did = "" <;> simp [completionRequestPayload, hkid, hdid]

/-- Witness for C8: a concrete request with content and a knowledge id
produces the ingest-first trace, and a concrete completion build with a
knowledge id carries the collection reference. -/
theorem ingestion_and_file_references_witness :
    ((createChatHandler demoEnv demoBackend (Except.ok (some "doc-9")) (Except.ok ())
        { prompt := "What is the capital of France?", content := "notes",
          knowledgeID := "kb1", documentID := "" }).fst =
      FlowEvent.ingestDoc "notes" "kb1" "doc-9" ::
        (createMainChat demoEnv demoBackend "What is the capital of France?" "doc-9").fst.map
          FlowEvent.api) ∧
    ({ type := "collection", id := "kb1" } : FileReference) ∈
      (completionRequestPayload "chat-1" "asst-1" demoUserMsg "gemma3" "dt" "kb1" "doc-9").files :=
  ⟨(ingestion_and_file_references demoEnv demoBackend (Except.ok (some "doc-9")) (Except.ok ())
      { prompt := "What is the capital of France?", content := "notes",
        knowledgeID := "kb1", documentID := "" } "doc-9"
      (by decide) (by decide) rfl).1,
   (ingestion_and_file_references demoEnv demoBackend (Except.ok (some "doc-9")) (Except.ok ())
      { prompt := "What is the capital of France?", content := "notes",
        knowledgeID := "kb1", documentID := "" } "doc-9"
      (by decide) (by decide) rfl).2.2 "chat-1" "asst-1" demoUserMsg "gemma3" "dt" "kb1" "doc-9"
     (by decide)⟩

/-- C9: an empty registration id makes getOwnerID fail before any
network request is issued; for any decoded registry response, a returned
registration number longer than 3 bytes maps to OWNER- followed by the
uppercased registration, and anything shorter yields the mapping-failure
error. -/
theorem getOwnerID_mapping (registrationID : String)
    (fetch : Except String VehicleResponse) :
    (getOwnerID "" fetch = (false, Except.error "Tool B received empty registration ID")) ∧
    (∀ resp, registrationID ≠ "" → fetch = Except.ok resp →
      getOwnerID registrationID fetch =
        (if resp.registrationNumber.utf8ByteSize > 3 then
          (true, Except.ok ("OWNER-" ++ toUpperGo resp.registrationNumber))
        else
          (true, Except.error ("Tool B: Failed to map registration "
            ++ resp.registrationNumber ++ " to an owner ID")))) := by
  refine ⟨rfl, ?_⟩
  intro resp hne hf
  subst hf
  by_cases hlen : resp.registrationNumber.utf8ByteSize > 3
  · have hmap : mapRegistrationToOwnerID resp.registrationNumber =
        "OWNER-" ++ toUpperGo resp.registrationNumber := by
      simp [mapRegistrationToOwnerID, hlen]
    have hne2 : "OWNER-" ++ toUpperGo resp.registrationNumber ≠ "" :=
      append_left_ne "OWNER-" "" (toUpperGo resp.registrationNumber) (by decide)
    simp [getOwnerID, hne, hmap, hne2, hlen]
  · simp [getOwnerID, hne, mapRegistrationToOwnerID, hlen]

/-- Witness for C9: concrete lookups exercise the empty-input guard, the
long-registration mapping and the short-registration failure. -/
theorem getOwnerID_mapping_witness :
    getOwnerID "" (Except.ok demoVehicle) =
      (false, Except.error "Tool B received empty registration ID") ∧
    getOwnerID "AB12CDE" (Except.ok demoVehicle) =
      (true, Except.ok ("OWNER-" ++ toUpperGo "ab12cde")) ∧
    getOwnerID "AB" (Except.ok demoShortVehicle) =
      (true, Except.error ("Tool B: Failed to map registration " ++ "ab" ++ " to an owner ID")) :=
  ⟨(getOwnerID_mapping "x" (Except.ok demoVehicle)).1,
   (getOwnerID_mapping "AB12CDE" (Except.ok demoVehicle)).2 demoVehicle (by decide) rfl,
   (getOwnerID_mapping "AB" (Except.ok demoShortVehicle)).2 demoShortVehicle (by decide) rfl⟩
